import Mathlib

/-!
Verification of the aiida-cp2k example scripts
(`examples/single_calculations/example_restart.py`,
`examples/single_calculations/example_structure_through_file.py`,
`examples/workchains/example_base.py`,
`examples/workchains/example_multistage_h2o_testfile.py`).

The scripts are straight-line Python driver code: they build nested CP2K
parameter dictionaries, populate an AiiDA process builder, call
`run(builder)` (an external engine), and in one script make `assert`
statements on the returned outputs.  The embedding models:
  * Python nested dicts (`JVal` below, with Python dict insertion-order
    semantics for lookup / item assignment / `del`),
  * the AiiDA objects the scripts construct (`Code`, `SinglefileData`,
    `StructureData` from ase atoms, process builders),
  * each script body as an executable function from the environment
    (the results the external engine returns for each `run` call) to the
    list of observable events it performs (prints, run submissions,
    assert checks with early abort, uncaught errors),
  * the per-script statement traces (assignment / run / assert order)
    for the temporal claims, and
  * the `cli` click entry point, identical in all four files.
-/

/-- An exact decimal number `mant * 10 ^ exp10`, the model of the
numeric literals the scripts write (all are short decimal or scientific
literals such as `280`, `1e-20`, `1.0e-12`, `-17.1566455959`, so exact
decimals represent them with no floating-point rounding). -/
structure Dec where
  mant : Int
  exp10 : Int
deriving DecidableEq, BEq, Repr

/-- A decimal integer literal. -/
def Dec.int (n : Int) : Dec := ⟨n, 0⟩

/-- Value of `a` rescaled to exponent `m ≤ a.exp10`, as an integer mantissa. -/
def Dec.scaled (a : Dec) (m : Int) : Int := a.mant * 10 ^ (a.exp10 - m).toNat

/-- Exact decimal subtraction. -/
def Dec.sub (a b : Dec) : Dec :=
  let m := min a.exp10 b.exp10
  ⟨a.scaled m - b.scaled m, m⟩

/-- Decimal absolute value (Python `abs`). -/
def Dec.abs (a : Dec) : Dec := ⟨a.mant.natAbs, a.exp10⟩

/-- Decimal strict order (Python `<` on the represented values). -/
def Dec.blt (a b : Dec) : Bool :=
  let m := min a.exp10 b.exp10
  a.scaled m < b.scaled m

mutual
/-- A Python value appearing in the scripts' nested parameter dicts:
strings, numbers (exact decimals), dicts (insertion-ordered key/value
lists) and lists.  `JFields`/`JArr` are the spine types of dict bodies
and lists, kept as separate mutual inductives so that all recursions
below are plain structural mutual recursions. -/
inductive JVal where
  | str (s : String)
  | num (d : Dec)
  | obj (fields : JFields)
  | arr (elems : JArr)
inductive JFields where
  | nil
  | cons (k : String) (v : JVal) (rest : JFields)
inductive JArr where
  | anil
  | acons (v : JVal) (rest : JArr)
end

/-- Build a dict body from a list of key/value pairs (literal syntax helper). -/
def JFields.ofList : List (String × JVal) → JFields
  | [] => .nil
  | (k, v) :: rest => .cons k v (JFields.ofList rest)

/-- Build a Python list value from a Lean list (literal syntax helper). -/
def JArr.ofList : List JVal → JArr
  | [] => .anil
  | v :: rest => .acons v (JArr.ofList rest)

/-- A Python dict literal. -/
def jobj (l : List (String × JVal)) : JVal := .obj (JFields.ofList l)

/-- A Python list literal. -/
def jarr (l : List JVal) : JVal := .arr (JArr.ofList l)

/-- Dict lookup `d[k]` (first binding wins; insertion order preserved,
a key occurs at most once the way the scripts build dicts). -/
def JFields.find : JFields → String → Option JVal
  | .nil, _ => none
  | .cons k v rest, key => if k == key then some v else rest.find key

/-- Dict item assignment `d[k] = v`: overwrite in place if the key is
present, else append at the end — Python dict insertion-order semantics. -/
def JFields.set : JFields → String → JVal → JFields
  | .nil, key, v => .cons key v .nil
  | .cons k w rest, key, v =>
      if k == key then .cons k v rest else .cons k w (rest.set key v)

/-- Dict deletion `del d[k]` (caller checks presence). -/
def JFields.del : JFields → String → JFields
  | .nil, _ => .nil
  | .cons k w rest, key => if k == key then rest else .cons k w (rest.del key)

/-- Nested lookup `d[p1][p2]...[pn]`; `none` models a Python `KeyError`
(or indexing a non-dict). -/
def getPath : JVal → List String → Option JVal
  | v, [] => some v
  | .obj fs, k :: rest =>
      match fs.find k with
      | some v => getPath v rest
      | none => none
  | _, _ :: _ => none

/-- Nested item assignment `d[p1]...[pn-1][pn] = v`: every intermediate
key must exist and hold a dict (else `KeyError`, modelled as `none`);
the final key is overwritten or created. -/
def setPath : JVal → List String → JVal → Option JVal
  | _, [], v => some v
  | .obj fs, [k], v => some (.obj (fs.set k v))
  | .obj fs, k :: k2 :: rest, v =>
      match fs.find k with
      | some w =>
          match setPath w (k2 :: rest) v with
          | some w2 => some (.obj (fs.set k w2))
          | none => none
      | none => none
  | _, _ :: _, _ => none

/-- Nested deletion `del d[p1]...[pn]`: all keys must exist (else
`KeyError`, modelled as `none`). -/
def delPath : JVal → List String → Option JVal
  | v, [] => some v
  | .obj fs, [k] =>
      match fs.find k with
      | some _ => some (.obj (fs.del k))
      | none => none
  | .obj fs, k :: k2 :: rest =>
      match fs.find k with
      | some w =>
          match delPath w (k2 :: rest) with
          | some w2 => some (.obj (fs.set k w2))
          | none => none
      | none => none
  | _, _ :: _ => none

mutual
/-- Structural equality of Python values. -/
def JVal.beq : JVal → JVal → Bool
  | .str a, .str b => a == b
  | .num a, .num b => a == b
  | .obj a, .obj b => JFields.beqF a b
  | .arr a, .arr b => JArr.beqA a b
  | _, _ => false
def JFields.beqF : JFields → JFields → Bool
  | .nil, .nil => true
  | .cons k v r, .cons k2 v2 r2 => k == k2 && JVal.beq v v2 && JFields.beqF r r2
  | _, _ => false
def JArr.beqA : JArr → JArr → Bool
  | .anil, .anil => true
  | .acons v r, .acons v2 r2 => JVal.beq v v2 && JArr.beqA r r2
  | _, _ => false
end

/-- One leaf difference between two nested dicts: the path, the value on
the left (`none` = absent) and the value on the right. -/
abbrev JDiff := List String × Option JVal × Option JVal

/-- Keys of a dict body, in order. -/
def JFields.keys : JFields → List String
  | .nil => []
  | .cons k _ rest => k :: rest.keys

mutual
/-- Difference of two Python values, as a list of leaf differences.
Two dicts are compared key by key (left dict's keys in order, recursing
on common keys, then the right dict's extra keys); any other differing
pair is reported whole at the current path. -/
def jdiff : JVal → JVal → List JDiff
  | .obj a, .obj b =>
      jdiffFields a b ++
      (b.keys.filter (fun k => (a.find k).isNone)).map
        (fun k => ([k], none, b.find k))
  | x, y => if JVal.beq x y then [] else [([], some x, some y)]
/-- Key-by-key difference: for each key of the left dict body, recurse
when the right dict has the key, else report a removal. -/
def jdiffFields : JFields → JFields → List JDiff
  | .nil, _ => []
  | .cons k v rest, b =>
      (match b.find k with
       | some w => (jdiff v w).map (fun d => (k :: d.1, d.2.1, d.2.2))
       | none => [([k], some v, none)])
      ++ jdiffFields rest b
end

/-! ## AiiDA objects the scripts construct -/

/-- An AiiDA `Code` (as obtained from `Code.get_from_string`); the
scripts only pass it around, so only its label is modelled. -/
structure Code where
  label : String
deriving DecidableEq, Repr

/-- An ase `Atoms` object, by provenance: the scripts build atoms with
`ase.build.molecule('H2O')` followed by `center(vacuum=2.0)`, optionally
zero all positions (`atoms.positions *= 0.0`), or read them from an xyz
file with `ase.io.read`. -/
inductive AseAtoms where
  | h2o_centered (vacuum : Dec)
  | zero_positions (a : AseAtoms)
  | read_xyz (path : List String)
deriving DecidableEq, Repr

/-- An AiiDA `SinglefileData`, identified by the path components the
script joins (relative to the script's directory). -/
structure SinglefileData where
  path : List String
deriving DecidableEq, Repr

/-- A value attached under a key of `builder.file`: the scripts attach
both `SinglefileData` objects and (in `example_structure_through_file`)
a `StructureData`; a `StructureData` is identified by the ase atoms it
was built from. -/
inductive FileInput where
  | single (f : SinglefileData)
  | structure_data (a : AseAtoms)
deriving DecidableEq, Repr

/-- The `metadata.options.resources` dict the scripts assign. -/
structure Resources where
  num_machines : Nat
  num_mpiprocs_per_machine : Nat
deriving DecidableEq, Repr

/-- The `metadata.options` fields the scripts assign. -/
structure MetadataOptions where
  resources : Option Resources
  max_wallclock_seconds : Option Nat
deriving DecidableEq, Repr

/-- The remote working directory of a finished calculation
(`calc['remote_folder']`), opaque to the scripts. -/
structure RemoteFolder where
  id : Nat
deriving DecidableEq, Repr

/-- The `Cp2kCalculation` process builder: the fields the example
scripts populate.  `none` / `[]` means the field was never assigned.
(`structure` is a Lean keyword, hence the field name
`structure_input`.) -/
structure Cp2kBuilder where
  structure_input : Option AseAtoms
  parameters : Option JVal
  code : Option Code
  file : List (String × FileInput)
  metadata_options : MetadataOptions
  parent_calc_folder : Option RemoteFolder

/-- The `Cp2kBaseWorkChain` builder: the scripts only populate its
`cp2k` namespace, which holds `Cp2kCalculation` inputs. -/
structure Cp2kBaseBuilder where
  cp2k : Cp2kBuilder

/-- The `Cp2kMultistageWorkChain` builder: the fields
`example_multistage_h2o_testfile` populates. -/
structure MultistageBuilder where
  structure_input : Option AseAtoms
  protocol_yaml : Option SinglefileData
  cp2k_base : Cp2kBaseBuilder

/-- A builder value passed to `run`, tagged by which process class it
was obtained from. -/
inductive BuilderVal where
  | calc (b : Cp2kBuilder)
  | base (b : Cp2kBaseBuilder)
  | multistage (b : MultistageBuilder)

/-- What the scripts read off a finished calculation returned by `run`:
`output_parameters` fields (`exceeded_walltime`, `energy` — `none`
models Python `None` —, `nwarnings`), whether the `output_structure`
output is present, the `remote_folder` output, and the retrieved
`aiida.out` file content. -/
structure CalcResult where
  exceeded_walltime : Bool
  energy : Option Dec
  nwarnings : Int
  has_output_structure : Bool
  remote_folder : RemoteFolder
  aiida_out : String

/-- The environment of `example_restart`: what the external AiiDA
engine returns for its first and second `run(builder)` calls. -/
structure RestartEnv where
  run1 : CalcResult
  run2 : CalcResult

/-! ## Observable events of a script execution -/

/-- One observable event of a script body: a `print`, a `run(builder)`
submission (with the builder value submitted), an `assert` statement
(with the checked condition's value), or an uncaught Python error. -/
inductive ScriptEv where
  | printEv (msg : String)
  | runEv (b : BuilderVal)
  | assertEv (label : String) (passed : Bool)
  | errorEv (msg : String)

/-- Execute a block of consecutive `assert` statements: each emits an
event, and the first failing one raises `AssertionError`, aborting the
script (no later events). -/
def execAsserts : List (String × Bool) → List ScriptEv
  | [] => []
  | (lbl, ok) :: rest => .assertEv lbl ok :: (if ok then execAsserts rest else [])

/-- All checks of an assert block hold. -/
def allPass (checks : List (String × Bool)) : Bool := checks.all (fun c => c.2)

/-- Number of `run(builder)` submissions in a trace. -/
def countRuns : List ScriptEv → Nat
  | [] => 0
  | .runEv _ :: rest => countRuns rest + 1
  | _ :: rest => countRuns rest

/-- The builders submitted to `run`, in order. -/
def runBuilders : List ScriptEv → List BuilderVal
  | [] => []
  | .runEv b :: rest => b :: runBuilders rest
  | _ :: rest => runBuilders rest

/-- The trace contains a given `print`. -/
def hasPrint (msg : String) : List ScriptEv → Bool
  | [] => false
  | .printEv m :: rest => m == msg || hasPrint msg rest
  | _ :: rest => hasPrint msg rest

/-- The trace contains an `assert` event with the given label and value. -/
def hasAssert (lbl : String) (passed : Bool) : List ScriptEv → Bool
  | [] => false
  | .assertEv l p :: rest => (l == lbl && p == passed) || hasAssert lbl passed rest
  | _ :: rest => hasAssert lbl passed rest

/-- Labels of all `assert` events of a trace, in order. -/
def assertLabels : List ScriptEv → List String
  | [] => []
  | .assertEv l _ :: rest => l :: assertLabels rest
  | _ :: rest => assertLabels rest

/-- The trace contains an `assert` event strictly after some `run`
submission (`seen` is the accumulator: a `run` was already passed). -/
def hasAssertAfterRunAux (seen : Bool) : List ScriptEv → Bool
  | [] => false
  | .runEv _ :: rest => hasAssertAfterRunAux true rest
  | .assertEv _ _ :: rest => seen || hasAssertAfterRunAux seen rest
  | _ :: rest => hasAssertAfterRunAux seen rest

/-- The trace contains an `assert` event after a `run` submission. -/
def hasAssertAfterRun (tr : List ScriptEv) : Bool := hasAssertAfterRunAux false tr

/-! ## String helpers: Python `re.search` for the one pattern the
scripts use, and Python `str.format` field padding -/

/-- Whether `pat` occurs as a contiguous sublist of `l` (at any position). -/
def listContainsSub (pat : List Char) : List Char → Bool
  | [] => pat.isEmpty
  | c :: rest => pat.isPrefixOf (c :: rest) || listContainsSub pat rest

/-- One line matches the regular expression
`WARNING .* :: Overwriting coordinates`: the literal `WARNING ` occurs,
followed (after zero or more characters, `.` not crossing a newline —
the line is newline-free) by the literal ` :: Overwriting coordinates`. -/
def lineMatchesOverwriteWarning : List Char → Bool
  | [] => false
  | c :: rest =>
      (("WARNING ".toList).isPrefixOf (c :: rest)
        && listContainsSub (" :: Overwriting coordinates".toList) ((c :: rest).drop 8))
      || lineMatchesOverwriteWarning rest

/-- Split a character list at newlines. -/
def splitNewlines : List Char → List (List Char)
  | [] => [[]]
  | c :: rest =>
      let r := splitNewlines rest
      if c == '\n' then [] :: r
      else match r with
           | [] => [[c]]
           | l :: ls => (c :: l) :: ls

/-- Python `re.search("WARNING .* :: Overwriting coordinates", s)`
succeeds: since `.` does not match a newline and both literals are
newline-free, a match lies within a single line of `s`. -/
def searchOverwriteWarning (s : String) : Bool :=
  (splitNewlines s.data).any lineMatchesOverwriteWarning

/-- Python `'{:<15}'.format(x)` applied to the string form of `x`:
left-align and pad with spaces to width 15 (no truncation). -/
def padLeftAlign15 (s : String) : String :=
  s ++ String.mk (List.replicate (15 - s.length) ' ')

/-- The format string `'{:<15}  {:<15}  {:<15}'` of
`example_structure_through_file`, applied to the string forms of the
three cell diagonal entries. -/
def fmtABC (a b c : String) : String :=
  padLeftAlign15 a ++ "  " ++ padLeftAlign15 b ++ "  " ++ padLeftAlign15 c

/-! ## The click `cli` entry point (textually identical in all four
example scripts, up to the example function it finally calls) -/

/-- An ASCII single quote (the scripts' message contains two). -/
def squote : String := String.mk [Char.ofNat 39]

/-- Outcome of `cli`: either `sys.exit(1)` after printing a message —
the example function was never entered, so no builder was constructed
and nothing was submitted — or the example function was called with the
resolved code. -/
inductive CliOutcome where
  | exitNoCode (printed : String) (status : Nat)
  | ranExample (code : Code)

/-- The `cli` click command, identical in all four scripts:
`Code.get_from_string(codelabel)` (modelled by the ambient `resolve`
function, `none` = raises `NotExistent`); on `NotExistent` it prints
`The code '<codelabel>' does not exist` and exits with status 1,
otherwise it calls the example function with the resolved code. -/
def cli (resolve : String → Option Code) (codelabel : String) : CliOutcome :=
  match resolve codelabel with
  | none =>
      .exitNoCode ("The code " ++ squote ++ codelabel ++ squote ++ " does not exist") 1
  | some code => .ranExample code

/-! ## `example_restart` (examples/single_calculations/example_restart.py) -/

namespace Restart

/-- Source `atoms1`: `ase.build.molecule('H2O')` centered with `vacuum=2.0`
(`structure1 = StructureData(ase=atoms1)`). -/
def atoms1 : AseAtoms := .h2o_centered ⟨2, 0⟩

/-- Source `atoms2`: the same centered H2O molecule with all positions zeroed
(`atoms2.positions *= 0.0`). -/
def atoms2 : AseAtoms := .zero_positions (.h2o_centered ⟨2, 0⟩)

/-- Source `basis_file = SinglefileData(file=.../"../files/BASIS_MOLOPT")`. -/
def basis_file : SinglefileData := ⟨["..", "files", "BASIS_MOLOPT"]⟩

/-- Source `pseudo_file = SinglefileData(file=.../"../files/GTH_POTENTIALS")`. -/
def pseudo_file : SinglefileData := ⟨["..", "files", "GTH_POTENTIALS"]⟩

/-- Dict `params1`: the first CP2K input dict of `example_restart`, keys in
source order. -/
def params1 : JVal :=
  jobj [
    ("GLOBAL", jobj [
      ("RUN_TYPE", .str "GEO_OPT"),
      ("WALLTIME", .str "00:00:10")]),
    ("MOTION", jobj [
      ("GEO_OPT", jobj [
        ("MAX_FORCE", .num ⟨1, -20⟩),
        ("MAX_ITER", .num (.int 100000))])]),
    ("FORCE_EVAL", jobj [
      ("METHOD", .str "Quickstep"),
      ("DFT", jobj [
        ("BASIS_SET_FILE_NAME", .str "BASIS_MOLOPT"),
        ("POTENTIAL_FILE_NAME", .str "GTH_POTENTIALS"),
        ("QS", jobj [
          ("EPS_DEFAULT", .num ⟨1, -12⟩),
          ("WF_INTERPOLATION", .str "ps"),
          ("EXTRAPOLATION_ORDER", .num (.int 3))]),
        ("MGRID", jobj [
          ("NGRIDS", .num (.int 4)),
          ("CUTOFF", .num (.int 280)),
          ("REL_CUTOFF", .num (.int 30))]),
        ("XC", jobj [
          ("XC_FUNCTIONAL", jobj [
            ("_", .str "LDA")])]),
        ("POISSON", jobj [
          ("PERIODIC", .str "none"),
          ("PSOLVER", .str "MT")]),
        ("SCF", jobj [
          ("PRINT", jobj [
            ("RESTART", jobj [
              ("_", .str "ON")])])])]),
      ("SUBSYS", jobj [
        ("KIND", jarr [
          jobj [
            ("_", .str "O"),
            ("BASIS_SET", .str "DZVP-MOLOPT-SR-GTH"),
            ("POTENTIAL", .str "GTH-LDA-q6")],
          jobj [
            ("_", .str "H"),
            ("BASIS_SET", .str "DZVP-MOLOPT-SR-GTH"),
            ("POTENTIAL", .str "GTH-LDA-q1")]])])])]

/-- Source `restart_wfn_fn = './parent_calc/aiida-RESTART.wfn'`. -/
def restart_wfn_fn : String := "./parent_calc/aiida-RESTART.wfn"

/-- Dict `params2`: built from a `deepcopy` of `params1` (modelled as the
value itself — the edits below are functional, so `params1` is
untouched) by deleting `GLOBAL.WALLTIME` and
`MOTION.GEO_OPT.MAX_FORCE`, setting `FORCE_EVAL.DFT.RESTART_FILE_NAME`
and `FORCE_EVAL.DFT.SCF.SCF_GUESS`, and adding the `EXT_RESTART`
section; `none` would mean one of the subscripts raised `KeyError`. -/
def params2? : Option JVal :=
  (delPath params1 ["GLOBAL", "WALLTIME"]).bind fun p =>
  (delPath p ["MOTION", "GEO_OPT", "MAX_FORCE"]).bind fun p =>
  (setPath p ["FORCE_EVAL", "DFT", "RESTART_FILE_NAME"] (.str restart_wfn_fn)).bind fun p =>
  (setPath p ["FORCE_EVAL", "DFT", "SCF", "SCF_GUESS"] (.str "RESTART")).map fun p =>
  match p with
  | .obj fs => .obj (fs.set "EXT_RESTART"
      (jobj [("RESTART_FILE_NAME", .str "./parent_calc/aiida-1.restart")]))
  | v => v

/-- The dict `params2?` evaluates to. -/
def params2 : JVal := params2?.getD (jobj [])

end Restart

namespace Restart

/-- The process builder at the first `run` call: the fields assigned in
lines 114–125 of `example_restart.py`. -/
def builder1 (cp2k_code : Code) : Cp2kBuilder :=
  { structure_input := some atoms1
  , parameters := some params1
  , code := some cp2k_code
  , file := [("basis", .single basis_file), ("pseudo", .single pseudo_file)]
  , metadata_options :=
      { resources := some { num_machines := 1, num_mpiprocs_per_machine := 1 }
      , max_wallclock_seconds := some (1 * 2 * 60) }
  , parent_calc_folder := none }

/-- The process builder at the second `run` call: `builder1` updated in
place with `structure2`, `params2` and the first calculation's
`remote_folder` as `parent_calc_folder` (lines 156–158). -/
def builder2 (cp2k_code : Code) (rf : RemoteFolder) : Cp2kBuilder :=
  { builder1 cp2k_code with
      structure_input := some atoms2
    , parameters := some params2
    , parent_calc_folder := some rf }

/-- The assert block after the first calculation (lines 131–133):
`exceeded_walltime is True`, `energy is not None`,
`'output_structure' in calc1`. -/
def check1 (c1 : CalcResult) : List (String × Bool) :=
  [("exceeded_walltime_is_True", c1.exceeded_walltime == true),
   ("energy_is_not_None", c1.energy.isSome),
   ("output_structure_present", c1.has_output_structure)]

/-- Source `expected_energy = -17.1566455959`. -/
def expected_energy : Dec := ⟨-171566455959, -10⟩

/-- The assert block after the second calculation (lines 169 and 173):
`nwarnings == 1`, then `re.search` on the retrieved `aiida.out`. -/
def check2 (c2 : CalcResult) : List (String × Bool) :=
  [("nwarnings_eq_1", c2.nwarnings == 1),
   ("aiida_out_matches_overwrite_warning", searchOverwriteWarning c2.aiida_out)]

end Restart

/-- The body of `example_restart(cp2k_code)` as the list of events it
performs, given the engine results `env`: prints and first submission,
the first assert block (aborting on failure), then the second
submission with the updated builder, the conditional energy print —
whose comparison raises `TypeError` when `energy` is `None` — and the
second assert block. -/
def example_restart (cp2k_code : Code) (env : RestartEnv) : List ScriptEv :=
  [.printEv "Testing CP2K restart...",
   .printEv "submitted calculation 1:",
   .runEv (.calc (Restart.builder1 cp2k_code))]
  ++ execAsserts (Restart.check1 env.run1)
  ++ (if allPass (Restart.check1 env.run1) then
        [.printEv "OK, walltime exceeded as expected",
         .printEv "submitted calculation 2",
         .runEv (.calc (Restart.builder2 cp2k_code env.run1.remote_folder))]
        ++ (match env.run2.energy with
            | none => [.errorEv "TypeError"]
            | some e =>
                (if ((e.sub Restart.expected_energy).abs.blt ⟨1, -10⟩) then
                   [.printEv "OK, energy has the expected value"]
                 else [])
                ++ execAsserts (Restart.check2 env.run2))
      else [])

/-! ## `example_base` (examples/workchains/example_base.py) -/

namespace BaseWc

/-- The centered H2O structure of `example_base`. -/
def atoms : AseAtoms := .h2o_centered ⟨2, 0⟩

/-- Source `basis_file` of `example_base`. -/
def basis_file : SinglefileData := ⟨["..", "files", "BASIS_MOLOPT"]⟩

/-- Source `pseudo_file` of `example_base`. -/
def pseudo_file : SinglefileData := ⟨["..", "files", "GTH_POTENTIALS"]⟩

/-- The CP2K input dict of `example_base` (identical to the restart
script's `params1` minus `GLOBAL` and `MOTION`). -/
def parameters : JVal :=
  jobj [
    ("FORCE_EVAL", jobj [
      ("METHOD", .str "Quickstep"),
      ("DFT", jobj [
        ("BASIS_SET_FILE_NAME", .str "BASIS_MOLOPT"),
        ("POTENTIAL_FILE_NAME", .str "GTH_POTENTIALS"),
        ("QS", jobj [
          ("EPS_DEFAULT", .num ⟨1, -12⟩),
          ("WF_INTERPOLATION", .str "ps"),
          ("EXTRAPOLATION_ORDER", .num (.int 3))]),
        ("MGRID", jobj [
          ("NGRIDS", .num (.int 4)),
          ("CUTOFF", .num (.int 280)),
          ("REL_CUTOFF", .num (.int 30))]),
        ("XC", jobj [
          ("XC_FUNCTIONAL", jobj [
            ("_", .str "LDA")])]),
        ("POISSON", jobj [
          ("PERIODIC", .str "none"),
          ("PSOLVER", .str "MT")])]),
      ("SUBSYS", jobj [
        ("KIND", jarr [
          jobj [
            ("_", .str "O"),
            ("BASIS_SET", .str "DZVP-MOLOPT-SR-GTH"),
            ("POTENTIAL", .str "GTH-LDA-q6")],
          jobj [
            ("_", .str "H"),
            ("BASIS_SET", .str "DZVP-MOLOPT-SR-GTH"),
            ("POTENTIAL", .str "GTH-LDA-q1")]])])])]

/-- The `Cp2kBaseWorkChain` builder at the `run` call of
`example_base` (lines 91–103): every input sits under the `cp2k`
namespace. -/
def builder (cp2k_code : Code) : Cp2kBaseBuilder :=
  { cp2k :=
    { structure_input := some atoms
    , parameters := some parameters
    , code := some cp2k_code
    , file := [("basis", .single basis_file), ("pseudo", .single pseudo_file)]
    , metadata_options :=
        { resources := some { num_machines := 1, num_mpiprocs_per_machine := 1 }
        , max_wallclock_seconds := some (1 * 3 * 60) }
    , parent_calc_folder := none } }

end BaseWc

/-- The body of `example_base(cp2k_code)`: two prints and a single
`run(builder)` whose result is discarded; no assert statements. -/
def example_base (cp2k_code : Code) : List ScriptEv :=
  [.printEv "Testing CP2K ENERGY on H2O (DFT) through a workchain...",
   .printEv "Submitted calculation...",
   .runEv (.base (BaseWc.builder cp2k_code))]

/-! ## `example_multistage_h2o_testfile`
(examples/workchains/example_multistage_h2o_testfile.py) -/

namespace Multistage

/-- The structure read from `../data/h2o.xyz` with `ase.io.read`. -/
def atoms : AseAtoms := .read_xyz ["..", "data", "h2o.xyz"]

/-- Source `builder.protocol_yaml = SinglefileData(.../"../data/testfile.yaml")`. -/
def protocol_yaml : SinglefileData := ⟨["..", "data", "testfile.yaml"]⟩

/-- The `Cp2kMultistageWorkChain` builder at the `run` call (lines
32–40): a structure, a protocol YAML file, and under
`cp2k_base.cp2k` only the code and the metadata options — no
`parameters`, no `file` dict, hence no basis-set or pseudopotential
file anywhere on the builder. -/
def builder (cp2k_code : Code) : MultistageBuilder :=
  { structure_input := some atoms
  , protocol_yaml := some protocol_yaml
  , cp2k_base :=
    { cp2k :=
      { structure_input := none
      , parameters := none
      , code := some cp2k_code
      , file := []
      , metadata_options :=
          { resources := some { num_machines := 1, num_mpiprocs_per_machine := 1 }
          , max_wallclock_seconds := some (1 * 3 * 60) }
      , parent_calc_folder := none } } }

end Multistage

/-- The body of `example_multistage_h2o_testfile(cp2k_code)`: two
prints and a single `run(builder)` whose result is discarded; no
assert statements. -/
def example_multistage_h2o_testfile (cp2k_code : Code) : List ScriptEv :=
  [.printEv "Testing CP2K multistage workchain on H2O",
   .printEv ">>> Loading a custom protocol from file testfile.yaml",
   .runEv (.multistage (Multistage.builder cp2k_code))]

/-! ## `example_structure_through_file`
(examples/single_calculations/example_structure_through_file.py) -/

namespace Stf

/-- The centered H2O molecule; `structure = StructureData(ase=atoms)`. -/
def atoms : AseAtoms := .h2o_centered ⟨2, 0⟩

/-- Source `basis_file` of `example_structure_through_file`. -/
def basis_file : SinglefileData := ⟨["..", "files", "BASIS_MOLOPT"]⟩

/-- Source `pseudo_file` of `example_structure_through_file`. -/
def pseudo_file : SinglefileData := ⟨["..", "files", "GTH_POTENTIALS"]⟩

/-- The CP2K input dict, parameterised by the string forms `d1 d2 d3`
of the three entries of `atoms.cell.diagonal()` (floats computed by the
external ase library): the `SUBSYS` carries a `TOPOLOGY` naming the
coordinate file `water.xyz` and a `CELL` whose `ABC` is the format
string `'{:<15}  {:<15}  {:<15}'` applied to the diagonal. -/
def parameters (d1 d2 d3 : String) : JVal :=
  jobj [
    ("FORCE_EVAL", jobj [
      ("METHOD", .str "Quickstep"),
      ("DFT", jobj [
        ("BASIS_SET_FILE_NAME", .str "BASIS_MOLOPT"),
        ("POTENTIAL_FILE_NAME", .str "GTH_POTENTIALS"),
        ("QS", jobj [
          ("EPS_DEFAULT", .num ⟨1, -12⟩),
          ("WF_INTERPOLATION", .str "ps"),
          ("EXTRAPOLATION_ORDER", .num (.int 3))]),
        ("MGRID", jobj [
          ("NGRIDS", .num (.int 4)),
          ("CUTOFF", .num (.int 280)),
          ("REL_CUTOFF", .num (.int 30))]),
        ("XC", jobj [
          ("XC_FUNCTIONAL", jobj [
            ("_", .str "LDA")])]),
        ("POISSON", jobj [
          ("PERIODIC", .str "none"),
          ("PSOLVER", .str "MT")])]),
      ("SUBSYS", jobj [
        ("TOPOLOGY", jobj [
          ("COORD_FILE_NAME", .str "water.xyz"),
          ("COORD_FILE_FORMAT", .str "XYZ")]),
        ("CELL", jobj [
          ("ABC", .str (fmtABC d1 d2 d3))]),
        ("KIND", jarr [
          jobj [
            ("_", .str "O"),
            ("BASIS_SET", .str "DZVP-MOLOPT-SR-GTH"),
            ("POTENTIAL", .str "GTH-LDA-q6")],
          jobj [
            ("_", .str "H"),
            ("BASIS_SET", .str "DZVP-MOLOPT-SR-GTH"),
            ("POTENTIAL", .str "GTH-LDA-q1")]])])])]

/-- The process builder at the `run` call (lines 98–110): no
`builder.structure` assignment anywhere in the script — the H2O
structure is attached under the key `water` of `builder.file`, next to
the basis-set and pseudopotential files. -/
def builder (cp2k_code : Code) (d1 d2 d3 : String) : Cp2kBuilder :=
  { structure_input := none
  , parameters := some (parameters d1 d2 d3)
  , code := some cp2k_code
  , file := [("basis", .single basis_file), ("pseudo", .single pseudo_file),
             ("water", .structure_data atoms)]
  , metadata_options :=
      { resources := some { num_machines := 1, num_mpiprocs_per_machine := 1 }
      , max_wallclock_seconds := some (1 * 3 * 60) }
  , parent_calc_folder := none }

end Stf

/-- The body of `example_structure_through_file(cp2k_code)`: two prints
and a single `run(builder)` whose result is discarded; no assert
statements. -/
def example_structure_through_file (cp2k_code : Code) (d1 d2 d3 : String) :
    List ScriptEv :=
  [.printEv "Testing CP2K ENERGY on H2O (DFT). Water molecule is provided through a file input...",
   .printEv "Submitted calculation...",
   .runEv (.calc (Stf.builder cp2k_code d1 d2 d3))]

/-! ## Statement-level traces

For the temporal claims the builder-relevant statements of each script
body are transcribed in source order: builder field assignments (by
attribute path), `run(builder)` calls, `assert` statements and the
remaining statements (prints, local constructions) as `otherStmt`. -/

/-- A statement of a script body, by kind. -/
inductive StmtEv where
  | assignStmt (path : List String)
  | runStmt
  | assertStmt
  | otherStmt
deriving DecidableEq, Repr

/-- Statement trace of `example_restart` (lines 32–173). -/
def restart_stmts : List StmtEv :=
  [.otherStmt,                                            -- print
   .otherStmt, .otherStmt, .otherStmt, .otherStmt,        -- pwd, atoms1, files
   .otherStmt,                                            -- params1
   .otherStmt,                                            -- get_builder
   .assignStmt ["structure"],
   .assignStmt ["parameters"],
   .assignStmt ["code"],
   .assignStmt ["file"],
   .assignStmt ["metadata", "options", "resources"],
   .assignStmt ["metadata", "options", "max_wallclock_seconds"],
   .otherStmt,                                            -- print
   .runStmt,
   .assertStmt, .assertStmt, .assertStmt,
   .otherStmt,                                            -- print
   .otherStmt, .otherStmt,                                -- params2, atoms2
   .assignStmt ["structure"],
   .assignStmt ["parameters"],
   .assignStmt ["parent_calc_folder"],
   .otherStmt,                                            -- print
   .runStmt,
   .otherStmt,                                            -- conditional print
   .assertStmt,
   .otherStmt,                                            -- output = ...
   .assertStmt]

/-- Statement trace of `example_base` (lines 30–106). -/
def base_stmts : List StmtEv :=
  [.otherStmt, .otherStmt, .otherStmt, .otherStmt, .otherStmt, -- pwd, print, files, atoms
   .otherStmt,                                                 -- parameters
   .otherStmt,                                                 -- get_builder
   .assignStmt ["cp2k", "structure"],
   .assignStmt ["cp2k", "parameters"],
   .assignStmt ["cp2k", "code"],
   .assignStmt ["cp2k", "file"],
   .assignStmt ["cp2k", "metadata", "options", "resources"],
   .assignStmt ["cp2k", "metadata", "options", "max_wallclock_seconds"],
   .otherStmt,                                                 -- print
   .runStmt]

/-- Statement trace of `example_multistage_h2o_testfile` (lines 25–42). -/
def multistage_stmts : List StmtEv :=
  [.otherStmt, .otherStmt, .otherStmt, .otherStmt,  -- prints, thisdir, structure
   .otherStmt,                                      -- get_builder
   .assignStmt ["structure"],
   .assignStmt ["protocol_yaml"],
   .assignStmt ["cp2k_base", "cp2k", "code"],
   .assignStmt ["cp2k_base", "cp2k", "metadata", "options", "resources"],
   .assignStmt ["cp2k_base", "cp2k", "metadata", "options", "max_wallclock_seconds"],
   .runStmt]

/-- Statement trace of `example_structure_through_file` (lines 30–113). -/
def stf_stmts : List StmtEv :=
  [.otherStmt, .otherStmt, .otherStmt, .otherStmt, .otherStmt, -- print, pwd, atoms, files
   .otherStmt,                                                 -- parameters
   .otherStmt,                                                 -- get_builder
   .assignStmt ["parameters"],
   .assignStmt ["code"],
   .assignStmt ["file"],
   .assignStmt ["metadata", "options", "resources"],
   .assignStmt ["metadata", "options", "max_wallclock_seconds"],
   .otherStmt,                                                 -- print
   .runStmt]

/-- Index (position) of the `k`-th `runStmt` of a trace, counting from 1. -/
def runStmtIdx : List StmtEv → Nat → Option Nat
  | [], _ => none
  | .runStmt :: rest, k =>
      if k ≤ 1 then some 0
      else (runStmtIdx rest (k - 1)).map (fun i => i + 1)
  | _ :: rest, k => (runStmtIdx rest k).map (fun i => i + 1)

/-- Every path of `used` is assigned by some statement strictly before
position `i` of the trace. -/
def assignedBefore (tr : List StmtEv) (i : Nat) (used : List (List String)) : Bool :=
  used.all (fun p =>
    (tr.take i).any (fun e =>
      match e with
      | .assignStmt q => q == p
      | _ => false))

/-- Every path of `used` is assigned before the `k`-th `run` call of
the trace (and that `run` call exists). -/
def usedAssignedBeforeRun (tr : List StmtEv) (k : Nat) (used : List (List String)) : Bool :=
  match runStmtIdx tr k with
  | none => false
  | some i => assignedBefore tr i used

/-- No builder field assignment occurs after the last `run` call. -/
def noAssignAfterLastRun (tr : List StmtEv) : Bool :=
  (tr.reverse.takeWhile (fun e => e != .runStmt)).all
    (fun e => match e with | .assignStmt _ => false | _ => true)

/-- Number of `runStmt` statements in a trace. -/
def countRunStmts (tr : List StmtEv) : Nat :=
  (tr.filter (fun e => e == .runStmt)).length

/-! ## Operations performed on the workchain classes

`example_base.py` and `example_multistage_h2o_testfile.py` obtain a
workchain class from `WorkflowFactory` and then operate on it; each
such operation is transcribed below.  The inductive lists every kind of
operation a script could perform on the class, so that the claim that
only the builder interface is used is not vacuous. -/

/-- An operation a script performs on (or with) a workchain class
obtained from `WorkflowFactory`. -/
inductive WcOp where
  | get_builder
  | builderAssign (path : List String)
  | passBuilderToRun
  | subclassWorkchain
  | defineWorkchainInternals
  | callClassMethod (name : String)
deriving DecidableEq, Repr

/-- The operation belongs to the builder interface: `get_builder()`,
attribute assignment on the returned builder, or passing the builder to
`run`. -/
def WcOp.builderInterfaceOnly : WcOp → Bool
  | .get_builder => true
  | .builderAssign _ => true
  | .passBuilderToRun => true
  | _ => false

/-- The operations `example_base.py` performs on `Cp2kBaseWorkChain`
(`WorkflowFactory('cp2k.base')`), in source order (lines 91–106). -/
def example_base_wcOps : List WcOp :=
  [.get_builder,
   .builderAssign ["cp2k", "structure"],
   .builderAssign ["cp2k", "parameters"],
   .builderAssign ["cp2k", "code"],
   .builderAssign ["cp2k", "file"],
   .builderAssign ["cp2k", "metadata", "options", "resources"],
   .builderAssign ["cp2k", "metadata", "options", "max_wallclock_seconds"],
   .passBuilderToRun]

/-- The operations `example_multistage_h2o_testfile.py` performs on
`Cp2kMultistageWorkChain` (`WorkflowFactory('cp2k.multistage')`), in
source order (lines 32–42). -/
def example_multistage_wcOps : List WcOp :=
  [.get_builder,
   .builderAssign ["structure"],
   .builderAssign ["protocol_yaml"],
   .builderAssign ["cp2k_base", "cp2k", "code"],
   .builderAssign ["cp2k_base", "cp2k", "metadata", "options", "resources"],
   .builderAssign ["cp2k_base", "cp2k", "metadata", "options", "max_wallclock_seconds"],
   .passBuilderToRun]

/-! ## Builder fields used at each submission

The builder fields populated at each `run(builder)` call, per script
(read off the builder values `Restart.builder1` / `Restart.builder2` /
`BaseWc.builder` / `Multistage.builder` / `Stf.builder`). -/

/-- Fields of the first `example_restart` submission. -/
def restart_run1_uses : List (List String) :=
  [["structure"], ["parameters"], ["code"], ["file"],
   ["metadata", "options", "resources"],
   ["metadata", "options", "max_wallclock_seconds"]]

/-- Fields of the second `example_restart` submission. -/
def restart_run2_uses : List (List String) :=
  restart_run1_uses ++ [["parent_calc_folder"]]

/-- Fields of the `example_base` submission. -/
def base_run_uses : List (List String) :=
  [["cp2k", "structure"], ["cp2k", "parameters"], ["cp2k", "code"],
   ["cp2k", "file"], ["cp2k", "metadata", "options", "resources"],
   ["cp2k", "metadata", "options", "max_wallclock_seconds"]]

/-- Fields of the `example_multistage_h2o_testfile` submission. -/
def multistage_run_uses : List (List String) :=
  [["structure"], ["protocol_yaml"], ["cp2k_base", "cp2k", "code"],
   ["cp2k_base", "cp2k", "metadata", "options", "resources"],
   ["cp2k_base", "cp2k", "metadata", "options", "max_wallclock_seconds"]]

/-- Fields of the `example_structure_through_file` submission (no
`structure` — the structure travels inside `file`). -/
def stf_run_uses : List (List String) :=
  [["parameters"], ["code"], ["file"],
   ["metadata", "options", "resources"],
   ["metadata", "options", "max_wallclock_seconds"]]

/-! ## Helper lemmas about traces -/

/-- Lemma: `countRuns` adds over concatenation. -/
@[simp]
theorem countRuns_append (a b : List ScriptEv) :
    countRuns (a ++ b) = countRuns a + countRuns b := by
  induction a with
  | nil => simp [countRuns]
  | cons e rest ih => cases e <;> (simp [countRuns, ih]; try omega)

/-- Lemma: `countRuns` distributes over a branch. -/
@[simp]
theorem countRuns_ite (c : Prop) [Decidable c] (a b : List ScriptEv) :
    countRuns (if c then a else b) = if c then countRuns a else countRuns b :=
  apply_ite countRuns c a b

/-- Lemma: `hasAssert` distributes over concatenation. -/
@[simp]
theorem hasAssert_append (lbl : String) (p : Bool) (a b : List ScriptEv) :
    hasAssert lbl p (a ++ b) = (hasAssert lbl p a || hasAssert lbl p b) := by
  induction a with
  | nil => simp [hasAssert]
  | cons e rest ih => cases e <;> simp [hasAssert, ih, Bool.or_assoc]

/-- Lemma: `hasPrint` distributes over concatenation. -/
@[simp]
theorem hasPrint_append (msg : String) (a b : List ScriptEv) :
    hasPrint msg (a ++ b) = (hasPrint msg a || hasPrint msg b) := by
  induction a with
  | nil => simp [hasPrint]
  | cons e rest ih => cases e <;> simp [hasPrint, ih, Bool.or_assoc]

/-- Lemma: `runBuilders` distributes over concatenation. -/
@[simp]
theorem runBuilders_append (a b : List ScriptEv) :
    runBuilders (a ++ b) = runBuilders a ++ runBuilders b := by
  induction a with
  | nil => simp [runBuilders]
  | cons e rest ih => cases e <;> simp [runBuilders, ih]

/-- Lemma: `assertLabels` distributes over concatenation. -/
@[simp]
theorem assertLabels_append (a b : List ScriptEv) :
    assertLabels (a ++ b) = assertLabels a ++ assertLabels b := by
  induction a with
  | nil => simp [assertLabels]
  | cons e rest ih => cases e <;> simp [assertLabels, ih]

/-! ## Theorems -/

/-- C1 (counterexample): the claim says every example script makes at
least one assertion about output metadata after `run(builder)`; but
`example_base` performs no assert statement at all — its trace contains
no assert event after (or anywhere around) its `run` call. -/
theorem example_base_makes_no_assertion :
    hasAssertAfterRun (example_base { label := "cp2k@localhost" }) = false ∧
    assertLabels (example_base { label := "cp2k@localhost" }) = [] :=
  ⟨rfl, rfl⟩

/-- C1 (amended): `example_restart` makes at least one assertion after
submitting via `run(builder)` (on every engine result, its first assert
fires right after the first submission), while `example_base`,
`example_multistage_h2o_testfile` and `example_structure_through_file`
make no assertion at all. -/
theorem only_example_restart_asserts_outputs :
    (∀ code env, hasAssertAfterRun (example_restart code env) = true) ∧
    (∀ code, hasAssertAfterRun (example_base code) = false) ∧
    (∀ code, hasAssertAfterRun (example_multistage_h2o_testfile code) = false) ∧
    (∀ code d1 d2 d3,
      hasAssertAfterRun (example_structure_through_file code d1 d2 d3) = false) := by
  refine ⟨fun code env => ?_, fun code => rfl, fun code => rfl,
    fun code d1 d2 d3 => rfl⟩
  simp [example_restart, Restart.check1, execAsserts, hasAssertAfterRun,
    hasAssertAfterRunAux]

/-- C2 (counterexample): the claim says every example script attaches a
basis-set file and a pseudopotential file; but
`example_multistage_h2o_testfile` attaches no file dict at all to its
builder — only a structure and a protocol YAML file. -/
theorem multistage_attaches_no_basis_or_pseudo :
    (Multistage.builder { label := "cp2k@localhost" }).cp2k_base.cp2k.file = [] ∧
    (Multistage.builder { label := "cp2k@localhost" }).protocol_yaml =
      some { path := ["..", "data", "testfile.yaml"] } ∧
    (Multistage.builder { label := "cp2k@localhost" }).structure_input =
      some (.read_xyz ["..", "data", "h2o.xyz"]) := by
  refine ⟨rfl, rfl, rfl⟩

/-- C2 (amended): `example_restart` (both submissions), `example_base`
and `example_structure_through_file` each attach a basis-set file
(`BASIS_MOLOPT`, key `basis`) and a pseudopotential file
(`GTH_POTENTIALS`, key `pseudo`) to the builder before submission;
`example_multistage_h2o_testfile` attaches neither (its `file` dict is
empty — it attaches only a structure and a protocol YAML). -/
theorem basis_and_pseudo_attachment_per_script :
    ∀ code rf d1 d2 d3,
    (Restart.builder1 code).file =
      [("basis", .single { path := ["..", "files", "BASIS_MOLOPT"] }),
       ("pseudo", .single { path := ["..", "files", "GTH_POTENTIALS"] })] ∧
    (Restart.builder2 code rf).file =
      [("basis", .single { path := ["..", "files", "BASIS_MOLOPT"] }),
       ("pseudo", .single { path := ["..", "files", "GTH_POTENTIALS"] })] ∧
    (BaseWc.builder code).cp2k.file =
      [("basis", .single { path := ["..", "files", "BASIS_MOLOPT"] }),
       ("pseudo", .single { path := ["..", "files", "GTH_POTENTIALS"] })] ∧
    (Stf.builder code d1 d2 d3).file =
      [("basis", .single { path := ["..", "files", "BASIS_MOLOPT"] }),
       ("pseudo", .single { path := ["..", "files", "GTH_POTENTIALS"] }),
       ("water", .structure_data Stf.atoms)] ∧
    (Multistage.builder code).cp2k_base.cp2k.file = [] := by
  intro code rf d1 d2 d3
  refine ⟨rfl, rfl, rfl, rfl, rfl⟩

/-- C5 (confirmed): in the two scripts that use the workchains
`cp2k.base` and `cp2k.multistage`, every operation performed on the
class obtained from `WorkflowFactory` is part of the builder interface:
`get_builder()`, an attribute assignment on the returned builder, or
passing the builder to `run`; nothing subclasses the workchain, defines
internals, or calls any other class method. -/
theorem workchains_used_only_via_builder_interface :
    ((example_base_wcOps ++ example_multistage_wcOps).all
      WcOp.builderInterfaceOnly) = true := by
  decide

/-- C7 (confirmed): in every script, each builder field the submission
uses is assigned before the `run(builder)` call that uses it — for
`example_restart`, all six fields of the first submission before the
first `run`, and additionally the restart-specific fields
(`structure`, `parameters`, `parent_calc_folder` reassignments) before
the second `run` — and no builder field is assigned after the last
`run` call of any script. -/
theorem builder_fields_assigned_before_run :
    usedAssignedBeforeRun restart_stmts 1 restart_run1_uses = true ∧
    usedAssignedBeforeRun restart_stmts 2 restart_run2_uses = true ∧
    usedAssignedBeforeRun base_stmts 1 base_run_uses = true ∧
    usedAssignedBeforeRun multistage_stmts 1 multistage_run_uses = true ∧
    usedAssignedBeforeRun stf_stmts 1 stf_run_uses = true ∧
    noAssignAfterLastRun restart_stmts = true ∧
    noAssignAfterLastRun base_stmts = true ∧
    noAssignAfterLastRun multistage_stmts = true ∧
    noAssignAfterLastRun stf_stmts = true := by
  decide

/-- C9 (confirmed): `params2` is built from a (deep)copy of `params1`,
which still holds `GLOBAL.WALLTIME` and `MOTION.GEO_OPT.MAX_FORCE`
afterwards; none of the subscript operations raised `KeyError`; and the
leaf-level difference between `params1` and `params2` is exactly the
removal of those two keys plus the three additions
(`FORCE_EVAL.DFT.SCF.SCF_GUESS = 'RESTART'`,
`FORCE_EVAL.DFT.RESTART_FILE_NAME` and the `EXT_RESTART` section) —
every other entry is unchanged. -/
theorem params2_exact_diff_from_params1 :
    Restart.params2? = some Restart.params2 ∧
    getPath Restart.params1 ["GLOBAL", "WALLTIME"] = some (.str "00:00:10") ∧
    getPath Restart.params1 ["MOTION", "GEO_OPT", "MAX_FORCE"] =
      some (.num { mant := 1, exp10 := -20 }) ∧
    jdiff Restart.params1 Restart.params2 =
      [(["GLOBAL", "WALLTIME"], some (.str "00:00:10"), none),
       (["MOTION", "GEO_OPT", "MAX_FORCE"],
         some (.num { mant := 1, exp10 := -20 }), none),
       (["FORCE_EVAL", "DFT", "SCF", "SCF_GUESS"], none, some (.str "RESTART")),
       (["FORCE_EVAL", "DFT", "RESTART_FILE_NAME"], none,
         some (.str Restart.restart_wfn_fn)),
       (["EXT_RESTART"], none,
         some (jobj [("RESTART_FILE_NAME", .str "./parent_calc/aiida-1.restart")]))] := by
  refine ⟨rfl, rfl, rfl, rfl⟩

/-- C10 (confirmed): in `example_structure_through_file` the H2O
structure is never assigned to `builder.structure` (no such assignment
statement exists and the submitted builder's structure input is empty);
it reaches the calculation only under the key `water` of
`builder.file`, matching `COORD_FILE_NAME = 'water.xyz'` declared in
`SUBSYS.TOPOLOGY`; and the `CELL.ABC` parameter string is exactly the
three cell diagonal entries (string forms `d1 d2 d3`) formatted with
`'{:<15}  {:<15}  {:<15}'`. -/
theorem stf_structure_reaches_cp2k_only_as_file :
    ∀ code d1 d2 d3,
    (Stf.builder code d1 d2 d3).structure_input = none ∧
    (stf_stmts.all (fun e => e != .assignStmt ["structure"])) = true ∧
    List.lookup "water" (Stf.builder code d1 d2 d3).file =
      some (.structure_data Stf.atoms) ∧
    getPath (Stf.parameters d1 d2 d3)
        ["FORCE_EVAL", "SUBSYS", "TOPOLOGY", "COORD_FILE_NAME"] =
      some (.str "water.xyz") ∧
    getPath (Stf.parameters d1 d2 d3) ["FORCE_EVAL", "SUBSYS", "CELL", "ABC"] =
      some (.str (fmtABC d1 d2 d3)) := by
  intro code d1 d2 d3
  refine ⟨rfl, by decide, rfl, rfl, rfl⟩

/-- C3 (confirmed): in `example_restart`, `params1` sets
`GLOBAL.WALLTIME = '00:00:10'` and `GLOBAL.RUN_TYPE = 'GEO_OPT'` with
`MOTION.GEO_OPT.MAX_FORCE = 1e-20`; after the first calculation the
script asserts `exceeded_walltime is True`, then `energy is not None`,
then that `output_structure` is among the outputs — and it proceeds to
the second submission exactly when all three hold. -/
theorem restart_first_run_asserts (code : Code) (env : RestartEnv) :
    getPath Restart.params1 ["GLOBAL", "WALLTIME"] = some (.str "00:00:10") ∧
    getPath Restart.params1 ["GLOBAL", "RUN_TYPE"] = some (.str "GEO_OPT") ∧
    getPath Restart.params1 ["MOTION", "GEO_OPT", "MAX_FORCE"] =
      some (.num { mant := 1, exp10 := -20 }) ∧
    hasAssert "exceeded_walltime_is_True" (env.run1.exceeded_walltime == true)
      (example_restart code env) = true ∧
    (env.run1.exceeded_walltime = true →
      hasAssert "energy_is_not_None" env.run1.energy.isSome
        (example_restart code env) = true) ∧
    (env.run1.exceeded_walltime = true → env.run1.energy.isSome = true →
      hasAssert "output_structure_present" env.run1.has_output_structure
        (example_restart code env) = true) ∧
    (countRuns (example_restart code env) = 2 ↔
      (env.run1.exceeded_walltime = true ∧ env.run1.energy.isSome = true ∧
       env.run1.has_output_structure = true)) := by
  refine ⟨rfl, rfl, rfl, ?_, ?_, ?_, ?_⟩ <;>
  · cases h1 : env.run1.exceeded_walltime <;>
    cases h2 : env.run1.energy <;>
    cases h3 : env.run1.has_output_structure <;>
    cases h4 : env.run2.energy <;>
    simp [example_restart, Restart.check1, Restart.check2, execAsserts, allPass,
      hasAssert, countRuns, h1, h2, h3, h4]

/-- C3 (witness): a concrete engine environment in which the first
calculation exceeded the walltime, has an energy and an output
structure, instantiating `restart_first_run_asserts`. -/
theorem restart_first_run_asserts_witness :
    ({ run1 := { exceeded_walltime := true, energy := some { mant := -17, exp10 := 0 },
                 nwarnings := 1, has_output_structure := true,
                 remote_folder := { id := 7 }, aiida_out := "" },
       run2 := { exceeded_walltime := false, energy := some { mant := -17, exp10 := 0 },
                 nwarnings := 1, has_output_structure := true,
                 remote_folder := { id := 8 }, aiida_out := "" } } :
        RestartEnv).run1.exceeded_walltime = true ∧
    countRuns (example_restart { label := "cp2k@localhost" }
      { run1 := { exceeded_walltime := true, energy := some { mant := -17, exp10 := 0 },
                  nwarnings := 1, has_output_structure := true,
                  remote_folder := { id := 7 }, aiida_out := "" },
        run2 := { exceeded_walltime := false, energy := some { mant := -17, exp10 := 0 },
                  nwarnings := 1, has_output_structure := true,
                  remote_folder := { id := 8 }, aiida_out := "" } }) = 2 := by
  refine ⟨rfl, ?_⟩
  exact (restart_first_run_asserts { label := "cp2k@localhost" } _).2.2.2.2.2.2.mpr
    ⟨rfl, rfl, rfl⟩

/-- C6 (confirmed): no example script implements retry, restart or
resubmission control flow: `example_base`,
`example_multistage_h2o_testfile` and `example_structure_through_file`
each submit exactly once; `example_restart` contains exactly two
statically fixed `run` statements, and its submissions are exactly the
first builder followed — unconditionally, as soon as the first run's
assert block passes — by the second builder, which reuses the first
calculation's `remote_folder` purely as data; no submission is
repeated or branched on process state. -/
theorem scripts_fixed_run_counts (code : Code) (env : RestartEnv) (d1 d2 d3 : String) :
    runBuilders (example_restart code env) =
      (if allPass (Restart.check1 env.run1) then
         [.calc (Restart.builder1 code),
          .calc (Restart.builder2 code env.run1.remote_folder)]
       else [.calc (Restart.builder1 code)]) ∧
    countRuns (example_base code) = 1 ∧
    countRuns (example_multistage_h2o_testfile code) = 1 ∧
    countRuns (example_structure_through_file code d1 d2 d3) = 1 ∧
    countRunStmts restart_stmts = 2 ∧
    countRunStmts base_stmts = 1 ∧
    countRunStmts multistage_stmts = 1 ∧
    countRunStmts stf_stmts = 1 := by
  refine ⟨?_, rfl, rfl, rfl, by decide, by decide, by decide, by decide⟩
  cases h1 : env.run1.exceeded_walltime <;>
  cases h2 : env.run1.energy <;>
  cases h3 : env.run1.has_output_structure <;>
  cases he : env.run2.energy <;>
  simp [example_restart, runBuilders, execAsserts, Restart.check1, Restart.check2,
    allPass, h1, h2, h3, he, apply_ite runBuilders]

/-- C8 (confirmed): the `cli` entry point (identical in each script):
when `Code.get_from_string` raises `NotExistent` (the ambient resolver
returns `none`), it prints `The code '<codelabel>' does not exist` and
exits with status 1 — the example function is never entered, so no
builder is constructed and nothing is submitted; when the codelabel
resolves, it calls the example function with the resolved code. -/
theorem cli_exits_on_missing_code_else_runs (resolve : String → Option Code)
    (codelabel : String) :
    (resolve codelabel = none →
      cli resolve codelabel =
        .exitNoCode ("The code " ++ squote ++ codelabel ++ squote ++ " does not exist") 1) ∧
    (∀ c, resolve codelabel = some c → cli resolve codelabel = .ranExample c) := by
  constructor
  · intro h; simp [cli, h]
  · intro c h; simp [cli, h]

/-- C8 (witness): `cli_exits_on_missing_code_else_runs` instantiated at
a resolver that knows no code (the label `missing`) and at one that
resolves `cp2k@localhost`. -/
theorem cli_exits_on_missing_code_else_runs_witness :
    ((fun _ : String => (none : Option Code)) "missing" = none ∧
     cli (fun _ => none) "missing" =
       .exitNoCode ("The code " ++ squote ++ "missing" ++ squote ++ " does not exist") 1) ∧
    ((fun _ : String => some ({ label := "cp2k@localhost" } : Code)) "cp2k@localhost" =
       some { label := "cp2k@localhost" } ∧
     cli (fun _ => some { label := "cp2k@localhost" }) "cp2k@localhost" =
       .ranExample { label := "cp2k@localhost" }) :=
  ⟨⟨rfl, (cli_exits_on_missing_code_else_runs (fun _ => none) "missing").1 rfl⟩,
   ⟨rfl, (cli_exits_on_missing_code_else_runs
            (fun _ => some { label := "cp2k@localhost" }) "cp2k@localhost").2 _ rfl⟩⟩

/-- C4 (confirmed): after the second calculation of `example_restart`,
the script asserts `nwarnings == 1` and asserts that the retrieved
`aiida.out` matches `WARNING .* :: Overwriting coordinates`; the energy
value is compared with the expected `-17.1566455959` only to guard the
print `OK, energy has the expected value` — no assert event about the
energy value exists (every assert label belongs to the five checks of
the two assert blocks). -/
theorem restart_second_run_checks (code : Code) (env : RestartEnv) (e : Dec)
    (h1 : env.run1.exceeded_walltime = true)
    (h2 : env.run1.energy.isSome = true)
    (h3 : env.run1.has_output_structure = true)
    (he : env.run2.energy = some e) :
    (hasPrint "OK, energy has the expected value" (example_restart code env) =
      (e.sub Restart.expected_energy).abs.blt { mant := 1, exp10 := -10 }) ∧
    hasAssert "nwarnings_eq_1" (env.run2.nwarnings == 1)
      (example_restart code env) = true ∧
    (env.run2.nwarnings = 1 →
      hasAssert "aiida_out_matches_overwrite_warning"
        (searchOverwriteWarning env.run2.aiida_out) (example_restart code env) = true) ∧
    ((assertLabels (example_restart code env)).all (fun l =>
      ["exceeded_walltime_is_True", "energy_is_not_None",
       "output_structure_present", "nwarnings_eq_1",
       "aiida_out_matches_overwrite_warning"].contains l)) = true := by
  cases hb : (e.sub Restart.expected_energy).abs.blt { mant := 1, exp10 := -10 } <;>
  by_cases hn : env.run2.nwarnings = 1 <;>
  simp [example_restart, Restart.check1, Restart.check2, execAsserts, allPass,
    hasPrint, hasAssert, assertLabels, h1, h2, h3, he, hb, hn,
    Option.isSome_iff_exists.mp h2]

/-- Engine environment used by the C4 witness: the first run exceeded
the walltime with an energy and an output structure; the second run
returned exactly the expected energy, one warning, and an `aiida.out`
containing the overwrite warning line. -/
def restartWitnessEnv : RestartEnv :=
  { run1 := { exceeded_walltime := true, energy := some { mant := -171, exp10 := -1 },
              nwarnings := 0, has_output_structure := true,
              remote_folder := { id := 7 }, aiida_out := "" },
    run2 := { exceeded_walltime := false,
              energy := some { mant := -171566455959, exp10 := -10 },
              nwarnings := 1, has_output_structure := true,
              remote_folder := { id := 8 },
              aiida_out := " WARNING in qs :: Overwriting coordinates" } }

/-- C4 (witness): `restart_second_run_checks` instantiated at
`restartWitnessEnv`, discharging all four hypotheses at concrete
values. -/
theorem restart_second_run_checks_witness :
    restartWitnessEnv.run1.exceeded_walltime = true ∧
    restartWitnessEnv.run1.energy.isSome = true ∧
    restartWitnessEnv.run1.has_output_structure = true ∧
    restartWitnessEnv.run2.energy = some { mant := -171566455959, exp10 := -10 } ∧
    ((hasPrint "OK, energy has the expected value"
        (example_restart { label := "cp2k@localhost" } restartWitnessEnv) =
      (Dec.sub { mant := -171566455959, exp10 := -10 }
        Restart.expected_energy).abs.blt { mant := 1, exp10 := -10 }) ∧
     hasAssert "nwarnings_eq_1" (restartWitnessEnv.run2.nwarnings == 1)
       (example_restart { label := "cp2k@localhost" } restartWitnessEnv) = true ∧
     (restartWitnessEnv.run2.nwarnings = 1 →
       hasAssert "aiida_out_matches_overwrite_warning"
         (searchOverwriteWarning restartWitnessEnv.run2.aiida_out)
         (example_restart { label := "cp2k@localhost" } restartWitnessEnv) = true) ∧
     ((assertLabels (example_restart { label := "cp2k@localhost" } restartWitnessEnv)).all
       (fun l =>
         ["exceeded_walltime_is_True", "energy_is_not_None",
          "output_structure_present", "nwarnings_eq_1",
          "aiida_out_matches_overwrite_warning"].contains l)) = true) :=
  ⟨rfl, rfl, rfl, rfl,
   restart_second_run_checks { label := "cp2k@localhost" } restartWitnessEnv
     { mant := -171566455959, exp10 := -10 } rfl rfl rfl rfl⟩
